import Mathlib

/-!
Verification of the `RandomCrop` image-preprocessing layer
(`keras/src/layers/preprocessing/image_preprocessing/random_crop.py`).

The layer is embedded shallowly:
* Python/NumPy machine integers are modelled as `ℤ` (no overflow is relevant
  at the sizes involved), floating-point scalars as `ℚ` (all arithmetic the
  module performs on them is exact at the granularity of the claims),
  tensors as nested lists.
* `float -> int32` casts and Python `int(...)` both truncate toward zero and
  are modelled by `pyInt`.
* The backend primitives the module calls (`backend.random.uniform`,
  `backend.core.slice`, `standardize_data_format`, `make_default_seed`,
  the seed generator) live outside this file's source and are modelled from
  the specification, each marked as such in its doc comment.
-/

namespace RandomCropVerif

/-- The two tensor layouts accepted by `standardize_data_format`. -/
inductive DataFormat where
  | channels_first
  | channels_last
deriving DecidableEq

/-- Truncation toward zero on rationals: the semantics of Python `int(...)`
applied to a float, and of a `float -> int32` tensor cast. -/
def pyInt (q : ℚ) : ℤ := if 0 ≤ q then ⌊q⌋ else -⌊-q⌋

/-- The `RandomCrop` instance state fixed at construction
(`RandomCrop.__init__`): target `height` and `width`, the stored `seed`
attribute, the raw argument handed to `SeedGenerator`, and the
standardized data format. -/
structure RandomCrop where
  height : ℤ
  width : ℤ
  seed : ℤ
  generator_init : Option ℤ
  data_format : DataFormat

/-- Modelled from the spec: `standardize_data_format` resolves `None` to the
framework-wide default layout and returns a concrete layout unchanged. -/
def standardize_data_format (df : Option DataFormat) (globalDefault : DataFormat) : DataFormat :=
  df.getD globalDefault

/-- `RandomCrop.__init__`: stores `height` and `width`; stores
`seed if seed is not None else backend.random.make_default_seed()` (the
freshly generated default is the parameter `defaultSeed`, modelled from the
spec since `make_default_seed` is external); hands the RAW `seed` argument to
`SeedGenerator(seed)`; standardizes `data_format`. -/
def RandomCrop.init (height width : ℤ) (seed : Option ℤ) (data_format : Option DataFormat)
    (defaultSeed : ℤ) (globalDefault : DataFormat) : RandomCrop :=
  { height := height
    width := width
    seed := seed.getD defaultSeed
    generator_init := seed
    data_format := standardize_data_format data_format globalDefault }

/-- `self.height_axis`: `-2` for `channels_first`, `-3` for `channels_last`. -/
def heightAxis (rc : RandomCrop) : ℤ :=
  match rc.data_format with
  | DataFormat.channels_first => -2
  | DataFormat.channels_last => -3

/-- `self.width_axis`: `-1` for `channels_first`, `-2` for `channels_last`. -/
def widthAxis (rc : RandomCrop) : ℤ :=
  match rc.data_format with
  | DataFormat.channels_first => -1
  | DataFormat.channels_last => -2

/-- Python sequence indexing `l[ax]` with negative-index wrap-around;
`none` models an `IndexError`.  The entries themselves are `Option ℤ`
because a symbolic tensor shape may hold undefined (`None`) dimensions. -/
def pyGet (l : List (Option ℤ)) (ax : ℤ) : Option (Option ℤ) :=
  let i : ℤ := if ax < 0 then (l.length : ℤ) + ax else ax
  if 0 ≤ i then l.get? i.toNat else none

/-- The input height `input_shape[self.height_axis]` read by the planner;
the outer `Option` is indexing failure, the inner one an undefined dim. -/
def resolvedHeight (rc : RandomCrop) (input_shape : List (Option ℤ)) : Option (Option ℤ) :=
  pyGet input_shape (heightAxis rc)

/-- The input width `input_shape[self.width_axis]` read by the planner. -/
def resolvedWidth (rc : RandomCrop) (input_shape : List (Option ℤ)) : Option (Option ℤ) :=
  pyGet input_shape (widthAxis rc)

/-- The exceptions the planner can propagate: an out-of-range shape index
(raised by Python list indexing, delegated) and the module's own
`ValueError`, which records the received shape. -/
inductive PyError where
  | indexError
  | valueError (shape : List (Option ℤ))
deriving DecidableEq

/-- The intermediate crop-window size of the non-random branch:
`crop_height = max(min(input_height, int(float(input_width * height) / width)), 1)` and
`crop_width  = max(min(input_width,  int(float(input_height * width) / height)), 1)`. -/
def centerCrop (rc : RandomCrop) (ih iw : ℤ) : ℤ × ℤ :=
  (max (min ih (pyInt (((iw * rc.height : ℤ) : ℚ) / ((rc.width : ℤ) : ℚ)))) 1,
   max (min iw (pyInt (((ih * rc.width : ℤ) : ℚ) / ((rc.height : ℤ) : ℚ)))) 1)

/-- The non-random branch's offsets:
`h_start = int(float(input_height - crop_height) / 2)`,
`w_start = int(float(input_width - crop_width) / 2)`. -/
def centerCropPlan (rc : RandomCrop) (ih iw : ℤ) : ℤ × ℤ :=
  (pyInt (((ih - (centerCrop rc ih iw).1 : ℤ) : ℚ) / 2),
   pyInt (((iw - (centerCrop rc ih iw).2 : ℤ) : ℚ) / 2))

/-- `RandomCrop.get_random_transformation` with the backend's seeded
`random.uniform((), 0, maxval, seed)` draw abstracted as `samp : maxval ↦
sample` (modelled from the spec: the backend guarantees a sample in
`[0, maxval)`); the sample is then cast to `int32`.  Reads the spatial
dimensions of `input_shape` at the configured axes, raises `ValueError`
naming the shape when either is undefined, draws random offsets when
`training` and both input dimensions strictly exceed the target, and falls
back to the deterministic center-crop branch otherwise. -/
def getRandomTransformation (rc : RandomCrop) (samp : ℚ → ℚ)
    (input_shape : List (Option ℤ)) (training : Bool) : Except PyError (ℤ × ℤ) :=
  match pyGet input_shape (heightAxis rc), pyGet input_shape (widthAxis rc) with
  | some ihOpt, some iwOpt =>
    match ihOpt, iwOpt with
    | some ih, some iw =>
      if training = true ∧ rc.height < ih ∧ rc.width < iw then
        Except.ok
          (pyInt (samp (((ih - rc.height + 1 : ℤ) : ℚ))),
           pyInt (samp (((iw - rc.width + 1 : ℤ) : ℚ))))
      else
        Except.ok (centerCropPlan rc ih iw)
    | _, _ => Except.error (PyError.valueError input_shape)
  | _, _ => Except.error PyError.indexError

/-- One planning call on a live instance.  With `seed=None` the call pulls
the instance's `SeedGenerator` (modelled from the spec: an abstract stream
`genSeed` of seed values indexed by a per-instance counter that the call
advances); an explicit `seed` argument is used as-is and leaves the counter
untouched.  `uniform` is the backend draw, a pure function of the seed value
and `maxval`. -/
def planStep (rc : RandomCrop) (uniform : ℤ → ℚ → ℚ) (genSeed : ℕ → ℤ) (counter : ℕ)
    (seedOpt : Option ℤ) (input_shape : List (Option ℤ)) (training : Bool) :
    Except PyError (ℤ × ℤ) × ℕ :=
  match seedOpt with
  | some s => (getRandomTransformation rc (uniform s) input_shape training, counter)
  | none => (getRandomTransformation rc (uniform (genSeed counter)) input_shape training, counter + 1)

/-- The crop-window size the specification's formulas prescribe for the
non-random branch, written exactly as the spec states them:
`clamp(round_towards_zero(·), 1, input_dim)` with `clamp x lo hi =
min (max x lo) hi`. -/
def specCenterCrop (ih iw th tw : ℤ) : ℤ × ℤ :=
  (min (max (pyInt (((iw * th : ℤ) : ℚ) / ((tw : ℤ) : ℚ))) 1) ih,
   min (max (pyInt (((ih * tw : ℤ) : ℚ) / ((th : ℤ) : ℚ))) 1) iw)

/-- The offsets the specification's formulas prescribe for the non-random
branch: `h_start = floor((input_height - crop_height) / 2)` and
`w_start = floor((input_width - crop_width) / 2)`. -/
def specCenterPlan (ih iw th tw : ℤ) : ℤ × ℤ :=
  (⌊((ih - (specCenterCrop ih iw th tw).1 : ℤ) : ℚ) / 2⌋,
   ⌊((iw - (specCenterCrop ih iw th tw).2 : ℤ) : ℚ) / 2⌋)

/-- A bounding-box tensor, either unbatched `(num_boxes, 4)` or batched
`(batch, num_boxes, 4)`; the code distinguishes the two by
`len(backend.shape(boxes)) == 3`, here by the constructor. -/
inductive BoxTensor where
  | rank2 (bs : List (List ℚ))
  | rank3 (bs : List (List (List ℚ)))

/-- The `bounding_boxes` mapping: a boxes tensor paired with a labels
payload of arbitrary type. -/
structure BBoxes (β : Type) where
  boxes : BoxTensor
  labels : β

/-- The per-box action of `augment_bounding_boxes`: coordinate channels `0`
and `2` get `h_start` subtracted, channels `1` and `3` get `w_start`
subtracted, and every result is clamped below at `0` via `maximum(·, 0)`. -/
def adjustBox (h w : ℤ) (box : List ℚ) : List ℚ :=
  [max (box.getD 0 0 - (h : ℚ)) 0,
   max (box.getD 1 0 - (w : ℚ)) 0,
   max (box.getD 2 0 - (h : ℚ)) 0,
   max (box.getD 3 0 - (w : ℚ)) 0]

/-- `RandomCrop.augment_bounding_boxes`: offsets and clamps the four
coordinate channels of every box (stacking along the last axis is the
per-box map `adjustBox`), handling both ranks, and passes the labels
through unchanged. -/
def augment_bounding_boxes {β : Type} (bb : BBoxes β) (t : ℤ × ℤ) : BBoxes β :=
  { boxes :=
      match bb.boxes with
      | BoxTensor.rank2 bs => BoxTensor.rank2 (bs.map (adjustBox t.1 t.2))
      | BoxTensor.rank3 bs => BoxTensor.rank3 (bs.map (List.map (adjustBox t.1 t.2)))
    labels := bb.labels }

/-- The number of boxes held in a box tensor (per batch element in the
batched layout). -/
def boxCounts : BoxTensor → List ℕ
  | BoxTensor.rank2 bs => [bs.length]
  | BoxTensor.rank3 bs => bs.map List.length

/-- A rank-4 tensor as nested lists (outermost axis first). -/
abbrev Tensor4 (α : Type) : Type := List (List (List (List α)))

/-- Modelled from the spec: the backend slice primitive along one axis
extracts the window `[start, start + size)`. -/
def slice1 {α : Type} (xs : List α) (s n : ℕ) : List α := (xs.drop s).take n

/-- Modelled from the spec: `backend.core.slice(x, starts, sizes)` on a
rank-4 tensor extracts the window `[start, start + size)` along each axis. -/
def slice4 {α : Type} (xs : Tensor4 α) (s0 s1 s2 s3 n0 n1 n2 n3 : ℕ) : Tensor4 α :=
  (slice1 xs s0 n0).map fun p =>
    (slice1 p s1 n1).map fun r =>
      (slice1 r s2 n2).map fun q => slice1 q s3 n3

/-- `backend.shape(x)[1]`: the extent of axis 1 of a nested-list tensor. -/
def dim1 {α : Type} (xs : Tensor4 α) : ℕ := (xs.headD []).length

/-- `backend.shape(x)[3]`: the extent of axis 3 of a nested-list tensor. -/
def dim3 {α : Type} (xs : Tensor4 α) : ℕ := (((xs.headD []).headD []).headD []).length

/-- `RandomCrop.augment_images`: slice the window whose spatial extent is
the target `(height, width)` at offset `(h_start, w_start)`, at starts
`[0, h_start, w_start, 0]` with sizes `[shape[0], height, width, shape[3]]`
for `channels_last`, and at `[0, 0, h_start, w_start]` with sizes
`[shape[0], shape[1], height, width]` for `channels_first`.  The dtype cast
the code performs first is value-preserving in this model. -/
def augment_images {α : Type} (rc : RandomCrop) (images : Tensor4 α) (t : ℤ × ℤ) : Tensor4 α :=
  match rc.data_format with
  | DataFormat.channels_last =>
      slice4 images 0 t.1.toNat t.2.toNat 0
        images.length rc.height.toNat rc.width.toNat (dim3 images)
  | DataFormat.channels_first =>
      slice4 images 0 0 t.1.toNat t.2.toNat
        images.length (dim1 images) rc.height.toNat rc.width.toNat

/-- `RandomCrop.augment_segmentation_masks`: delegates to
`augment_images` with the same transformation. -/
def augment_segmentation_masks {α : Type} (rc : RandomCrop) (masks : Tensor4 α) (t : ℤ × ℤ) :
    Tensor4 α :=
  augment_images rc masks t

/-- Element lookup in a rank-4 nested-list tensor; `none` when any index is
out of range. -/
def get4? {α : Type} (xs : Tensor4 α) (b i j c : ℕ) : Option α :=
  (((xs[b]?.bind fun p => p[i]?).bind fun r => r[j]?).bind fun q => q[c]?)

/-- Well-formedness of a rank-4 nested-list tensor: every axis extent is
uniform and equals the stated shape `(B, H, W, C)`. -/
def WF4 {α : Type} (xs : Tensor4 α) (B H W C : ℕ) : Prop :=
  xs.length = B ∧ ∀ p ∈ xs, p.length = H ∧ ∀ r ∈ p, r.length = W ∧ ∀ q ∈ r, q.length = C

/-- The mapping `RandomCrop.get_config` contributes: `height`, `width`,
`seed`, `data_format` (the base-layer keys are outside this module). -/
structure Config where
  height : ℤ
  width : ℤ
  seed : ℤ
  data_format : DataFormat

/-- `RandomCrop.get_config`: serializes the stored attributes. -/
def get_config (rc : RandomCrop) : Config :=
  { height := rc.height, width := rc.width, seed := rc.seed, data_format := rc.data_format }

/-- Deserialization: the constructor applied to the entries of a saved
config (both `seed` and `data_format` arrive as concrete values). -/
def from_config (c : Config) (defaultSeed : ℤ) (globalDefault : DataFormat) : RandomCrop :=
  RandomCrop.init c.height c.width (some c.seed) (some c.data_format) defaultSeed globalDefault

/-- Truncation toward zero agrees with the floor on nonnegative arguments. -/
lemma pyInt_of_nonneg (q : ℚ) (h : 0 ≤ q) : pyInt q = ⌊q⌋ := if_pos h

/-- The code's clamp order `max (min hi x) lo` agrees with the spec's
`min (max x lo) hi` whenever `lo ≤ hi`. -/
lemma clamp_swap (x ihv : ℤ) (h : 1 ≤ ihv) : max (min ihv x) 1 = min (max x 1) ihv := by
  rcases le_total x ihv with h1 | h1 <;> rcases le_total x 1 with h2 | h2 <;>
    simp [max_def, min_def] <;> split_ifs <;> omega

/-- A concrete `RandomCrop` with target `(50, 50)` in `channels_last`
layout, as in the spec's center-crop example. -/
def rc5050 : RandomCrop :=
  { height := 50, width := 50, seed := 0, generator_init := none,
    data_format := DataFormat.channels_last }

/-- A concrete `RandomCrop` with target `(1, 1)` in `channels_last`
layout, used to instantiate hypotheses on concrete inputs. -/
def rc11 : RandomCrop :=
  { height := 1, width := 1, seed := 0, generator_init := none,
    data_format := DataFormat.channels_last }

/-- C1: `augment_bounding_boxes` keeps the labels, removes no boxes, maps
every box `[top, left, bottom, right]` to
`[max (top - h_start) 0, max (left - w_start) 0, max (bottom - h_start) 0,
max (right - w_start) 0]` in both the unbatched and the batched layout, and
in particular sends the box `[5, 5, 40, 40]` under transform `(10, 10)` to
`[0, 0, 30, 30]`. -/
theorem claim_C1_bounding_boxes : ∀ (β : Type) (bb : BBoxes β) (h w : ℤ),
    (augment_bounding_boxes bb (h, w)).labels = bb.labels
    ∧ boxCounts (augment_bounding_boxes bb (h, w)).boxes = boxCounts bb.boxes
    ∧ (∀ bs : List (List ℚ),
        (augment_bounding_boxes { boxes := BoxTensor.rank2 bs, labels := bb.labels } (h, w)).boxes
          = BoxTensor.rank2 (bs.map (adjustBox h w)))
    ∧ (∀ bs : List (List (List ℚ)),
        (augment_bounding_boxes { boxes := BoxTensor.rank3 bs, labels := bb.labels } (h, w)).boxes
          = BoxTensor.rank3 (bs.map (List.map (adjustBox h w))))
    ∧ (∀ a b c d : ℚ, adjustBox h w [a, b, c, d]
          = [max (a - h) 0, max (b - w) 0, max (c - h) 0, max (d - w) 0])
    ∧ adjustBox 10 10 [5, 5, 40, 40] = [0, 0, 30, 30] := by
  intro β bb h w
  refine ⟨rfl, ?_, fun bs => rfl, fun bs => rfl, fun a b c d => rfl, ?_⟩
  · cases hb : bb.boxes with
    | rank2 bs => simp [augment_bounding_boxes, boxCounts, hb]
    | rank3 bs => simp [augment_bounding_boxes, boxCounts, hb]
  · norm_num [adjustBox, max_def]

/-- C5: with a fixed explicit seed, planning calls are a pure function of
the seed, the shape and the mode — the result does not depend on the
instance's mutable generator counter, so repeated calls on the same
instance with identical shape and mode reproduce identical offsets. -/
theorem claim_C5_fixed_seed_deterministic :
    ∀ (rc : RandomCrop) (uniform : ℤ → ℚ → ℚ) (genSeed : ℕ → ℤ) (c1 c2 : ℕ) (s : ℤ)
      (input_shape : List (Option ℤ)) (training : Bool),
      (planStep rc uniform genSeed c1 (some s) input_shape training).1 =
      (planStep rc uniform genSeed c2 (some s) input_shape training).1 :=
  fun _ _ _ _ _ _ _ _ => rfl

/-- C7: `augment_segmentation_masks` is extensionally equal to
`augment_images`: the same window and offsets are used, so masks and
images stay pixel-aligned. -/
theorem claim_C7_masks_eq_images :
    ∀ (α : Type) (rc : RandomCrop) (masks : Tensor4 α) (t : ℤ × ℤ),
      augment_segmentation_masks rc masks t = augment_images rc masks t :=
  fun _ _ _ _ => rfl

/-- C9: feeding `get_config()` back into the constructor reproduces the
`height`, `width`, `seed` and `data_format` attributes. -/
theorem claim_C9_config_roundtrip :
    ∀ (rc : RandomCrop) (defaultSeed : ℤ) (globalDefault : DataFormat),
      (from_config (get_config rc) defaultSeed globalDefault).height = rc.height
      ∧ (from_config (get_config rc) defaultSeed globalDefault).width = rc.width
      ∧ (from_config (get_config rc) defaultSeed globalDefault).seed = rc.seed
      ∧ (from_config (get_config rc) defaultSeed globalDefault).data_format = rc.data_format :=
  fun _ _ _ => ⟨rfl, rfl, rfl, rfl⟩

/-- C10: constructing with `seed=None` stores the freshly generated default
seed in the `seed` attribute (which `get_config` then reports), yet the
`SeedGenerator` is initialized with the raw argument `None`, not with that
stored value. -/
theorem claim_C10_default_seed_mismatch :
    ∀ (h w : ℤ) (df : Option DataFormat) (defaultSeed : ℤ) (globalDefault : DataFormat),
      (RandomCrop.init h w none df defaultSeed globalDefault).seed = defaultSeed
      ∧ (get_config (RandomCrop.init h w none df defaultSeed globalDefault)).seed = defaultSeed
      ∧ (RandomCrop.init h w none df defaultSeed globalDefault).generator_init = none
      ∧ (RandomCrop.init h w none df defaultSeed globalDefault).generator_init
          ≠ some ((RandomCrop.init h w none df defaultSeed globalDefault).seed) :=
  fun _ _ _ _ _ => ⟨rfl, rfl, rfl, fun hcon => Option.noConfusion hcon⟩

/-- C3: whenever the planner takes the non-random branch, the crop window
it computes is `clamp(trunc(input_width * target_height / target_width), 1,
input_height)` by `clamp(trunc(input_height * target_width / target_height),
1, input_width)`, and the returned offsets are
`floor((input_height - crop_height) / 2)` and
`floor((input_width - crop_width) / 2)`. -/
theorem claim_C3_center_branch (rc : RandomCrop) (samp : ℚ → ℚ)
    (input_shape : List (Option ℤ)) (training : Bool) (ih iw : ℤ)
    (hih : resolvedHeight rc input_shape = some (some ih))
    (hiw : resolvedWidth rc input_shape = some (some iw))
    (hbranch : ¬(training = true ∧ rc.height < ih ∧ rc.width < iw))
    (h1 : 1 ≤ ih) (h2 : 1 ≤ iw) (hth : 1 ≤ rc.height) (htw : 1 ≤ rc.width) :
    centerCrop rc ih iw = specCenterCrop ih iw rc.height rc.width
    ∧ getRandomTransformation rc samp input_shape training
        = Except.ok (specCenterPlan ih iw rc.height rc.width) := by
  have hch : centerCrop rc ih iw = specCenterCrop ih iw rc.height rc.width := by
    unfold centerCrop specCenterCrop
    rw [clamp_swap _ _ h1, clamp_swap _ _ h2]
  have hchle : (centerCrop rc ih iw).1 ≤ ih := by
    unfold centerCrop
    exact max_le (min_le_left _ _) h1
  have hcwle : (centerCrop rc ih iw).2 ≤ iw := by
    unfold centerCrop
    exact max_le (min_le_left _ _) h2
  have hplan : centerCropPlan rc ih iw = specCenterPlan ih iw rc.height rc.width := by
    unfold centerCropPlan specCenterPlan
    rw [← hch]
    rw [pyInt_of_nonneg _ (div_nonneg (by exact_mod_cast sub_nonneg.mpr hchle) (by norm_num)),
        pyInt_of_nonneg _ (div_nonneg (by exact_mod_cast sub_nonneg.mpr hcwle) (by norm_num))]
  refine ⟨hch, ?_⟩
  have hih' : pyGet input_shape (heightAxis rc) = some (some ih) := hih
  have hiw' : pyGet input_shape (widthAxis rc) = some (some iw) := hiw
  have hred : getRandomTransformation rc samp input_shape training
      = Except.ok (centerCropPlan rc ih iw) := by
    unfold getRandomTransformation
    rw [hih', hiw']
    exact if_neg hbranch
  rw [hred, hplan]

/-- Instantiation of `claim_C3_center_branch` on the spec's own example,
`input = (100, 200)`, `target = (50, 50)`, inference mode. -/
theorem claim_C3_center_branch_witness :
    centerCrop rc5050 100 200 = specCenterCrop 100 200 rc5050.height rc5050.width
    ∧ getRandomTransformation rc5050 (fun _ => 0) [some 100, some 200, some 3] false
        = Except.ok (specCenterPlan 100 200 rc5050.height rc5050.width) :=
  claim_C3_center_branch rc5050 (fun _ => 0) [some 100, some 200, some 3] false 100 200
    (by decide) (by decide) (by decide) (by decide) (by decide) (by decide) (by decide)

/-- C4 counterexample: with input `(100, 200)` and target `(50, 50)` the
non-random branch's crop window is NOT `(crop_height, crop_width) =
(50, 100)`: the code computes `crop_height = clamp(trunc(200 * 50 / 50), 1,
100) = 100`, not `50`. -/
theorem claim_C4_counterexample : centerCrop rc5050 100 200 ≠ (50, 100) := by
  have h : centerCrop rc5050 100 200 = (100, 100) := by
    norm_num [centerCrop, rc5050, pyInt]
  rw [h]
  simp

/-- C4 as amended: in the center-crop branch with input `(100, 200)` and
target `(50, 50)` the intermediate crop window after clamping is
`crop_height = 100, crop_width = 100`, and the offsets follow the stated
formulas, giving `(h_start, w_start) = (0, 50)` with no dependence on the
random sampler. -/
theorem claim_C4_amended : ∀ samp : ℚ → ℚ,
    centerCrop rc5050 100 200 = (100, 100)
    ∧ getRandomTransformation rc5050 samp [some 100, some 200, some 3] false
        = Except.ok (0, 50) := by
  intro samp
  have h : centerCrop rc5050 100 200 = (100, 100) := by
    norm_num [centerCrop, rc5050, pyInt]
  refine ⟨h, ?_⟩
  have hih' : pyGet [some 100, some 200, some 3] (heightAxis rc5050) = some (some 100) := by
    decide
  have hiw' : pyGet [some 100, some 200, some 3] (widthAxis rc5050) = some (some 200) := by
    decide
  have hplan : centerCropPlan rc5050 100 200 = (0, 50) := by
    unfold centerCropPlan
    rw [h]
    norm_num [pyInt]
  have hred : getRandomTransformation rc5050 samp [some 100, some 200, some 3] false
      = Except.ok (centerCropPlan rc5050 100 200) := by
    unfold getRandomTransformation
    rw [hih', hiw']
    exact if_neg (by decide)
  rw [hred, hplan]

/-- C2: in training mode with both input dimensions strictly above the
target, the planner returns offsets drawn as continuous-uniform samples
over `[0, gap + 1)` floor-cast to integers, so `h_start` lies in
`[0, input_height - target_height]` and `w_start` in
`[0, input_width - target_width]`, for any backend sampler that respects
the `[0, maxval)` contract. -/
theorem claim_C2_random_branch_bounds (rc : RandomCrop) (samp : ℚ → ℚ)
    (input_shape : List (Option ℤ)) (ih iw : ℤ)
    (hih : resolvedHeight rc input_shape = some (some ih))
    (hiw : resolvedWidth rc input_shape = some (some iw))
    (hh : rc.height < ih) (hw : rc.width < iw)
    (hsamp : ∀ m : ℚ, 0 < m → 0 ≤ samp m ∧ samp m < m) :
    ∃ hs ws : ℤ,
      getRandomTransformation rc samp input_shape true = Except.ok (hs, ws)
      ∧ 0 ≤ hs ∧ hs ≤ ih - rc.height ∧ 0 ≤ ws ∧ ws ≤ iw - rc.width := by
  have hih' : pyGet input_shape (heightAxis rc) = some (some ih) := hih
  have hiw' : pyGet input_shape (widthAxis rc) = some (some iw) := hiw
  have hred : getRandomTransformation rc samp input_shape true
      = Except.ok
          (pyInt (samp (((ih - rc.height + 1 : ℤ) : ℚ))),
           pyInt (samp (((iw - rc.width + 1 : ℤ) : ℚ)))) := by
    unfold getRandomTransformation
    rw [hih', hiw']
    exact if_pos ⟨rfl, hh, hw⟩
  have bound : ∀ g : ℤ, 0 < g → 0 ≤ pyInt (samp ((g + 1 : ℤ) : ℚ)) ∧
      pyInt (samp ((g + 1 : ℤ) : ℚ)) ≤ g := by
    intro g hg
    have hm : (0 : ℚ) < ((g + 1 : ℤ) : ℚ) := by exact_mod_cast (by omega : (0 : ℤ) < g + 1)
    obtain ⟨hl, hu⟩ := hsamp _ hm
    rw [pyInt_of_nonneg _ hl]
    constructor
    · exact Int.le_floor.mpr (by exact_mod_cast hl)
    · have : ⌊samp ((g + 1 : ℤ) : ℚ)⌋ < g + 1 := Int.floor_lt.mpr hu
      omega
  obtain ⟨hl1, hu1⟩ := bound (ih - rc.height) (by omega)
  obtain ⟨hl2, hu2⟩ := bound (iw - rc.width) (by omega)
  exact ⟨_, _, by rw [hred], hl1, hu1, hl2, hu2⟩

/-- Instantiation of `claim_C2_random_branch_bounds` on a concrete
`(3, 4)` input with target `(1, 1)` and the sampler that always returns
`0`. -/
theorem claim_C2_random_branch_bounds_witness :
    ∃ hs ws : ℤ,
      getRandomTransformation rc11 (fun _ => 0) [some 3, some 4, some 1] true
          = Except.ok (hs, ws)
      ∧ 0 ≤ hs ∧ hs ≤ 3 - rc11.height ∧ 0 ≤ ws ∧ ws ≤ 4 - rc11.width :=
  claim_C2_random_branch_bounds rc11 (fun _ => 0) [some 3, some 4, some 1] 3 4
    (by decide) (by decide) (by decide) (by decide)
    (fun m hm => ⟨le_refl 0, hm⟩)

/-- Negative Python indexing succeeds on a list of length at least `-ax`. -/
lemma pyGet_total (l : List (Option ℤ)) (ax : ℤ) (h1 : -(l.length : ℤ) ≤ ax) (h2 : ax < 0) :
    ∃ x, pyGet l ax = some x := by
  unfold pyGet
  rw [if_pos h2, if_pos (by omega : (0 : ℤ) ≤ (l.length : ℤ) + ax)]
  have hlt : ((l.length : ℤ) + ax).toNat < l.length := by omega
  rw [List.get?_eq_get hlt]
  exact ⟨_, rfl⟩

/-- Both spatial axes of either layout resolve on a shape of rank at
least 3. -/
lemma spatial_axes_resolve (rc : RandomCrop) (input_shape : List (Option ℤ))
    (hrank : 3 ≤ input_shape.length) :
    (∃ x, pyGet input_shape (heightAxis rc) = some x)
    ∧ ∃ x, pyGet input_shape (widthAxis rc) = some x := by
  have hlen : (3 : ℤ) ≤ (input_shape.length : ℤ) := by exact_mod_cast hrank
  cases hdf : rc.data_format <;>
    exact ⟨pyGet_total _ _ (by simp [heightAxis, hdf]; omega) (by simp [heightAxis, hdf]),
           pyGet_total _ _ (by simp [widthAxis, hdf]; omega) (by simp [widthAxis, hdf])⟩

/-- C8: on any input shape of rank at least 3, the planner raises the
module's own `ValueError` — which names the received shape — exactly when
the resolved input height or width is undefined (`None`), and it raises no
other error itself. -/
theorem claim_C8_error_iff_undefined_dim (rc : RandomCrop) (samp : ℚ → ℚ)
    (input_shape : List (Option ℤ)) (training : Bool)
    (hrank : 3 ≤ input_shape.length) :
    (getRandomTransformation rc samp input_shape training
        = Except.error (PyError.valueError input_shape)
      ↔ resolvedHeight rc input_shape = some none
        ∨ resolvedWidth rc input_shape = some none)
    ∧ getRandomTransformation rc samp input_shape training
        ≠ Except.error PyError.indexError := by
  obtain ⟨⟨ihOpt, hih⟩, ⟨iwOpt, hiw⟩⟩ := spatial_axes_resolve rc input_shape hrank
  have hresh : resolvedHeight rc input_shape = some ihOpt := hih
  have hresw : resolvedWidth rc input_shape = some iwOpt := hiw
  cases ihOpt with
  | none =>
    have hred : getRandomTransformation rc samp input_shape training
        = Except.error (PyError.valueError input_shape) := by
      unfold getRandomTransformation
      rw [hih, hiw]
    rw [hred, hresh, hresw]
    exact ⟨by simp, by simp⟩
  | some ih =>
    cases iwOpt with
    | none =>
      have hred : getRandomTransformation rc samp input_shape training
          = Except.error (PyError.valueError input_shape) := by
        unfold getRandomTransformation
        rw [hih, hiw]
      rw [hred, hresh, hresw]
      exact ⟨by simp, by simp⟩
    | some iw =>
      have hred : getRandomTransformation rc samp input_shape training
          = if training = true ∧ rc.height < ih ∧ rc.width < iw then
              Except.ok
                (pyInt (samp (((ih - rc.height + 1 : ℤ) : ℚ))),
                 pyInt (samp (((iw - rc.width + 1 : ℤ) : ℚ))))
            else
              Except.ok (centerCropPlan rc ih iw) := by
        unfold getRandomTransformation
        rw [hih, hiw]
      rw [hred, hresh, hresw]
      constructor
      · constructor
        · intro hcon
          split at hcon <;> exact Except.noConfusion hcon
        · rintro (hcon | hcon) <;> exact Option.noConfusion (Option.some.inj hcon)
      · intro hcon
        split at hcon <;> exact Except.noConfusion hcon

/-- Instantiation of `claim_C8_error_iff_undefined_dim` on the rank-3 shape
`[None, 4, 1]`, whose height dimension is undefined in `channels_last`
layout. -/
theorem claim_C8_error_iff_undefined_dim_witness :
    (getRandomTransformation rc11 (fun _ => 0) [none, some 4, some 1] false
        = Except.error (PyError.valueError [none, some 4, some 1])
      ↔ resolvedHeight rc11 [none, some 4, some 1] = some none
        ∨ resolvedWidth rc11 [none, some 4, some 1] = some none)
    ∧ getRandomTransformation rc11 (fun _ => 0) [none, some 4, some 1] false
        ≠ Except.error PyError.indexError :=
  claim_C8_error_iff_undefined_dim rc11 (fun _ => 0) [none, some 4, some 1] false (by decide)

/-- Reading a sliced axis at an in-window index reads the source at the
offset index. -/
lemma slice1_getElem? {α : Type} (xs : List α) (s n i : ℕ) (h : i < n) :
    (slice1 xs s n)[i]? = xs[s + i]? := by
  unfold slice1
  rw [List.getElem?_take_of_lt h, List.getElem?_drop]

/-- A slice that fits inside the source has exactly the requested length. -/
lemma slice1_length_of_fit {α : Type} (xs : List α) (s n : ℕ) (h : s + n ≤ xs.length) :
    (slice1 xs s n).length = n := by
  simp only [slice1, List.length_take, List.length_drop]
  omega

/-- Slicing a whole axis from `0` is the identity. -/
lemma slice1_all {α : Type} (xs : List α) (n : ℕ) (h : xs.length = n) : slice1 xs 0 n = xs := by
  subst h
  unfold slice1
  rw [List.drop_zero, List.take_length]

/-- Successful indexed lookup implies membership. -/
lemma mem_of_getElem?_some {α : Type} {l : List α} {i : ℕ} {a : α} (h : l[i]? = some a) :
    a ∈ l := by
  obtain ⟨hi, rfl⟩ := List.getElem?_eq_some.mp h
  exact List.getElem_mem hi

/-- Elements of a slice are elements of the source. -/
lemma mem_of_mem_slice1 {α : Type} {l : List α} {s n : ℕ} {a : α} (h : a ∈ slice1 l s n) :
    a ∈ l :=
  List.mem_of_mem_drop (List.mem_of_mem_take h)

/-- On a nonempty well-formed tensor, the reported channel extent is the
well-formedness channel extent. -/
lemma dim3_eq {α : Type} (xs : Tensor4 α) (B H W C : ℕ) (hwf : WF4 xs B H W C)
    (hB : 0 < B) (hH : 0 < H) (hW : 0 < W) : dim3 xs = C := by
  obtain ⟨hlen, hrows⟩ := hwf
  cases xs with
  | nil =>
    simp only [List.length_nil] at hlen
    omega
  | cons p tl =>
    obtain ⟨hpH, hrow⟩ := hrows p (List.mem_cons_self p tl)
    cases p with
    | nil =>
      simp only [List.length_nil] at hpH
      omega
    | cons r rt =>
      obtain ⟨hrW, hcol⟩ := hrow r (List.mem_cons_self r rt)
      cases r with
      | nil =>
        simp only [List.length_nil] at hrW
        omega
      | cons q qt =>
        have hqC := hcol q (List.mem_cons_self q qt)
        simp [dim3, hqC]

/-- The spatial slice taken by `augment_images` in `channels_last` layout
preserves well-formedness, with the spatial extents replaced by the window
sizes. -/
lemma slice4_WF {α : Type} (xs : Tensor4 α) (B H W C s1 s2 n1 n2 : ℕ)
    (hwf : WF4 xs B H W C) (hfit1 : s1 + n1 ≤ H) (hfit2 : s2 + n2 ≤ W) :
    WF4 (slice4 xs 0 s1 s2 0 xs.length n1 n2 C) B n1 n2 C := by
  obtain ⟨hlen, hrows⟩ := hwf
  unfold slice4
  rw [slice1_all xs xs.length rfl]
  refine ⟨by rw [List.length_map]; exact hlen, ?_⟩
  intro p' hp'
  obtain ⟨p, hpmem, rfl⟩ := List.mem_map.mp hp'
  obtain ⟨hpH, hrow⟩ := hrows p hpmem
  refine ⟨by rw [List.length_map]; exact slice1_length_of_fit p s1 n1 (by omega), ?_⟩
  intro r' hr'
  obtain ⟨r, hrmem, rfl⟩ := List.mem_map.mp hr'
  obtain ⟨hrW, hcol⟩ := hrow r (mem_of_mem_slice1 hrmem)
  refine ⟨by rw [List.length_map]; exact slice1_length_of_fit r s2 n2 (by omega), ?_⟩
  intro q' hq'
  obtain ⟨q, hqmem, rfl⟩ := List.mem_map.mp hq'
  have hqC := hcol q (mem_of_mem_slice1 hqmem)
  rw [slice1_all q C hqC]
  exact hqC

/-- The content of the spatial slice taken by `augment_images` in
`channels_last` layout: element `(b, i, j, c)` of the output is element
`(b, s1 + i, s2 + j, c)` of the source. -/
lemma slice4_get4? {α : Type} (xs : Tensor4 α) (B H W C s1 s2 n1 n2 : ℕ)
    (hwf : WF4 xs B H W C) (hfit1 : s1 + n1 ≤ H) (hfit2 : s2 + n2 ≤ W)
    (b i j c : ℕ) (hi : i < n1) (hj : j < n2) :
    get4? (slice4 xs 0 s1 s2 0 xs.length n1 n2 C) b i j c
      = get4? xs b (s1 + i) (s2 + j) c := by
  obtain ⟨hlen, hrows⟩ := hwf
  unfold slice4 get4?
  rw [slice1_all xs xs.length rfl]
  rw [List.getElem?_map]
  cases hb : xs[b]? with
  | none => simp
  | some p =>
    obtain ⟨hpH, hrow⟩ := hrows p (mem_of_getElem?_some hb)
    simp only [Option.map_some', Option.some_bind]
    rw [List.getElem?_map, slice1_getElem? p s1 n1 i hi]
    have hidx : s1 + i < p.length := by omega
    rw [List.getElem?_eq_getElem hidx]
    simp only [Option.map_some', Option.some_bind]
    obtain ⟨hrW, hcol⟩ := hrow (p[s1 + i]) (List.getElem_mem hidx)
    rw [List.getElem?_map, slice1_getElem? _ s2 n2 j hj]
    have hjdx : s2 + j < (p[s1 + i]).length := by omega
    rw [List.getElem?_eq_getElem hjdx]
    simp only [Option.map_some', Option.some_bind]
    rw [slice1_all _ C (hcol _ (List.getElem_mem hjdx))]

/-- C6: in `channels_last` layout, `augment_images` on a well-formed
`(B, H, W, C)` batch with transform `(h_start, w_start)` returns the
window of shape `(B, target_height, target_width, C)` starting at
`(0, h_start, w_start, 0)`: element `(b, i, j, c)` of the output equals
element `(b, h_start + i, w_start + j, c)` of the source. -/
theorem claim_C6_augment_images (rc : RandomCrop) (images : Tensor4 ℚ)
    (B H W C hstart wstart : ℕ)
    (hdf : rc.data_format = DataFormat.channels_last)
    (hwf : WF4 images B H W C)
    (hB : 0 < B) (hH : 0 < H) (hW : 0 < W)
    (hfitH : hstart + rc.height.toNat ≤ H)
    (hfitW : wstart + rc.width.toNat ≤ W) :
    WF4 (augment_images rc images ((hstart : ℤ), (wstart : ℤ)))
        B rc.height.toNat rc.width.toNat C
    ∧ ∀ b i j c : ℕ, i < rc.height.toNat → j < rc.width.toNat →
        get4? (augment_images rc images ((hstart : ℤ), (wstart : ℤ))) b i j c
          = get4? images b (hstart + i) (wstart + j) c := by
  have hC : dim3 images = C := dim3_eq images B H W C hwf hB hH hW
  have haug : augment_images rc images ((hstart : ℤ), (wstart : ℤ))
      = slice4 images 0 hstart wstart 0
          images.length rc.height.toNat rc.width.toNat C := by
    simp only [augment_images, hdf, Int.toNat_natCast, hC]
  rw [haug]
  exact ⟨slice4_WF images B H W C hstart wstart _ _ hwf hfitH hfitW,
         fun b i j c hi hj =>
           slice4_get4? images B H W C hstart wstart _ _ hwf hfitH hfitW b i j c hi hj⟩

/-- Well-formedness of a concrete tensor is decidable (it only inspects
lengths). -/
instance instDecidableWF4 {α : Type} (xs : Tensor4 α) (B H W C : ℕ) :
    Decidable (WF4 xs B H W C) := by
  unfold WF4
  exact inferInstance

/-- A concrete well-formed `(1, 2, 2, 1)` image tensor. -/
def imgW : Tensor4 ℚ := [[[[0], [1]], [[2], [3]]]]

/-- Instantiation of `claim_C6_augment_images` on the `(1, 2, 2, 1)` batch
`imgW` with transform `(1, 1)` and target `(1, 1)`. -/
theorem claim_C6_augment_images_witness :
    get4? (augment_images rc11 imgW (((1 : ℕ) : ℤ), ((1 : ℕ) : ℤ))) 0 0 0 0
      = get4? imgW 0 (1 + 0) (1 + 0) 0 :=
  (claim_C6_augment_images rc11 imgW 1 2 2 1 1 1 rfl (by decide) (by decide) (by decide)
      (by decide) (by decide) (by decide)).2 0 0 0 0 (by decide) (by decide)

end RandomCropVerif
